import Mathlib

/-!
# Formal model of the gvm grammar engine

A shallow embedding of the parts of `src/gvm` needed to settle the claims:

* `gvm/typing.py` — the Optional/Sequence/scalar type algebra;
* `gvm/locations.py` and `gvm/language/parser.py` — locations, `ParserError.merge`,
  the parser primitives (`advance`, `consume`, `backtrack`) and the packrat memo
  (`Parser.parselet`);
* `gvm/language/combinators.py` — the combinator sum type, its `result_type` and
  `variables` inference, and the evaluation semantics;
* `gvm/language/scanner.py` — the per-step token selection of `Scanner.__match`;
* `gvm/language/grammar.py` — symbol registration, `Grammar.extend`, and the
  candidate selection of the Pratt climbing loop.

Python exceptions are modelled explicitly: a computation returns `ok`, raises a
`ParserError` (`perr`), or aborts abnormally (`crash`, covering `KeyError`,
`IndexError`, nontermination fuel and other non-`ParserError` failures).
-/

namespace Gvm

/-! ## Type algebra (`gvm/typing.py`)

Python type expressions as the combinator layer uses them: a scalar class,
`Optional[T]` or `Sequence[T]`.  `typing.Optional` flattens nested optionals,
which `pyOptional` reproduces. -/

inductive PyType where
  | scalar (name : String)
  | optional (t : PyType)
  | sequence (t : PyType)
deriving DecidableEq, Repr

/-- `typing.py: is_sequence_type` -/
def is_sequence_type : PyType → Bool
  | .sequence _ => true
  | _ => false

/-- `typing_inspect.is_optional_type` -/
def is_optional_type : PyType → Bool
  | .optional _ => true
  | _ => false

/-- `typing.py: unpack_type_argument` — strips one `Optional`/`Sequence` layer. -/
def unpack_type_argument : PyType → PyType
  | .optional t => t
  | .sequence t => t
  | t => t

/-- `typing.py: merge_sequence_type`; the `TypeError` on distinct scalars is
modelled as `none`. -/
def merge_sequence_type (lhs rhs : PyType) : Option PyType :=
  let l := unpack_type_argument lhs
  let r := unpack_type_argument rhs
  if l = r then some (.sequence l) else none

/-- `typing.py: make_sequence_type` -/
def make_sequence_type (t : PyType) : PyType :=
  .sequence (unpack_type_argument t)

/-- `typing.py: make_optional_type` -/
def make_optional_type (t : PyType) : PyType :=
  if is_sequence_type t || is_optional_type t then t else .optional t

/-- Raw `typing.Optional[t]` as Python evaluates it: a nested
`Optional[Optional[T]]` collapses to `Optional[T]` (Union flattening). -/
def pyOptional (t : PyType) : PyType :=
  match t with
  | .optional _ => t
  | _ => .optional t

/-! ## Combinators: the sum type and its static attributes
(`gvm/language/combinators.py`)

Constructors mirror `TokenCombinator`, `ParseletCombinator`,
`SequenceCombinator`, `PostfixCombinator`, `NamedCombinator`,
`OptionalCombinator`, `RepeatCombinator`.  Symbol identifiers compare by their
integer id in Python (`attr` equality on `id` alone), so the dynamic layer
carries plain `Nat` ids; a parselet reference also records the declared
`result_type` of its `ParseletID`. -/

inductive Combinator where
  | tokenC (token_id : Nat)
  | parseletC (parser_id : Nat) (parselet_result_type : PyType) (priority : Option Int)
  | sequenceC (combinators : List Combinator)
  | postfixC (combinators : List Combinator)
  | namedC (combinator : Combinator) (name : String)
  | optionalC (combinator : Combinator)
  | repeatC (combinator : Combinator)

mutual

/-- `result_type` of each combinator class.  `SequenceCombinator` (and
`PostfixCombinator`, which inherits it) returns `combinators[-1].result_type`;
the `IndexError` Python would raise on an empty sequence is represented by a
junk scalar (unreachable: `make_sequence` refuses empty argument lists). -/
def Combinator.result_type : Combinator → PyType
  | .tokenC _ => .scalar "SyntaxToken"
  | .parseletC _ rt _ => rt
  | .sequenceC cs => Combinator.lastResultType cs
  | .postfixC cs => Combinator.lastResultType cs
  | .namedC c _ => c.result_type
  | .optionalC c => pyOptional c.result_type
  | .repeatC c => .sequence c.result_type

/-- `combinators[-1].result_type`, with the empty case as junk. -/
def Combinator.lastResultType : List Combinator → PyType
  | [] => .scalar "IndexError"
  | [c] => c.result_type
  | _ :: c :: rest => Combinator.lastResultType (c :: rest)

end

/-- One step of `SequenceCombinator.variables`' dict update: a fresh name is
appended (`variables[name] = typ`), a clashing name is merged in place
(`variables[name] = merge_sequence_type(variables[name], typ)`); the
`TypeError` from `merge_sequence_type` propagates as `none`. -/
def updateVar : List (String × PyType) → String → PyType → Option (List (String × PyType))
  | [], name, typ => some [(name, typ)]
  | (n, t) :: rest, name, typ =>
    if n = name then
      (merge_sequence_type t typ).map fun t2 => (n, t2) :: rest
    else
      (updateVar rest name typ).map fun r => (n, t) :: r

/-- Folds one nested combinator's variables into the accumulated dict. -/
def foldInsertVars : List (String × PyType) → List (String × PyType) → Option (List (String × PyType))
  | acc, [] => some acc
  | acc, (n, t) :: rest =>
    match updateVar acc n t with
    | none => none
    | some acc2 => foldInsertVars acc2 rest

mutual

/-- The `variables` attribute of each combinator class, as an insertion-ordered
dict.  `none` models a `TypeError` raised by `merge_sequence_type`. -/
def Combinator.variables : Combinator → Option (List (String × PyType))
  | .tokenC _ => some []
  | .parseletC _ _ _ => some []
  | .sequenceC cs => Combinator.collectVariables cs []
  | .postfixC cs => Combinator.collectVariables cs []
  | .namedC c name => some [(name, c.result_type)]
  | .optionalC c => c.variables.map (List.map fun p => (p.1, make_optional_type p.2))
  | .repeatC c => c.variables.map (List.map fun p => (p.1, make_sequence_type p.2))

/-- The loop body of `SequenceCombinator.variables`. -/
def Combinator.collectVariables : List Combinator → List (String × PyType) → Option (List (String × PyType))
  | [], acc => some acc
  | c :: rest, acc =>
    match c.variables with
    | none => none
    | some vs =>
      match foldInsertVars acc vs with
      | none => none
      | some acc2 => Combinator.collectVariables rest acc2

end

/-! ## Locations (`gvm/locations.py`)

`Position` and `Location` are `attr` dataclasses with `order=True`: Python
compares them as tuples of their fields, i.e. lexicographically.  The `begin`
and `end` field names are Lean keywords, so they appear here as `start` and
`stop`. -/

structure Position where
  line : Int
  column : Int
deriving DecidableEq, Repr

structure Location where
  filename : String
  start : Position
  stop : Position
deriving DecidableEq, Repr

/-- `Position.__lt__` from `attr` `order=True`: lexicographic on
`(line, column)`. -/
def Position.lt (a b : Position) : Prop :=
  a.line < b.line ∨ (a.line = b.line ∧ a.column < b.column)

instance (a b : Position) : Decidable (Position.lt a b) := by
  unfold Position.lt; infer_instance

/-- `Location.__lt__` from `attr` `order=True`: lexicographic on
`(filename, begin, end)`. -/
def Location.lt (a b : Location) : Prop :=
  a.filename < b.filename ∨
    (a.filename = b.filename ∧
      (Position.lt a.start b.start ∨ (a.start = b.start ∧ Position.lt a.stop b.stop)))

instance (a b : Location) : Decidable (Location.lt a b) := by
  unfold Location.lt; infer_instance

/-- Lexicographic key of a position, used to transport linear-order facts. -/
def Position.key (p : Position) : Int ×ₗ Int := toLex (p.line, p.column)

/-- Lexicographic key of a location. -/
def Location.key (l : Location) : String ×ₗ ((Int ×ₗ Int) ×ₗ (Int ×ₗ Int)) :=
  toLex (l.filename, toLex (l.start.key, l.stop.key))

theorem Position.lt_iff_posKey (a b : Position) : Position.lt a b ↔ a.key < b.key := by
  simp [Position.lt, Position.key, Prod.Lex.lt_iff]

theorem Position.posKey_inj {a b : Position} (h : a.key = b.key) : a = b := by
  cases a; cases b
  simp [Position.key, toLex, Prod.ext_iff] at h
  simp [h.1, h.2]

theorem Location.lt_iff_key (a b : Location) : Location.lt a b ↔ a.key < b.key := by
  simp [Location.lt, Location.key, Prod.Lex.lt_iff, Position.lt_iff_posKey]
  constructor
  · rintro (h | ⟨hf, h | ⟨hs, h2⟩⟩)
    · exact Or.inl h
    · exact Or.inr ⟨hf, Or.inl h⟩
    · exact Or.inr ⟨hf, Or.inr ⟨by rw [hs], h2⟩⟩
  · rintro (h | ⟨hf, h | ⟨hs, h2⟩⟩)
    · exact Or.inl h
    · exact Or.inr ⟨hf, Or.inl h⟩
    · exact Or.inr ⟨hf, Or.inr ⟨Position.posKey_inj hs, h2⟩⟩

theorem Location.key_inj {a b : Location} (h : a.key = b.key) : a = b := by
  cases a; cases b
  simp [Location.key, toLex, Prod.ext_iff] at h
  obtain ⟨h1, h2, h3⟩ := h
  simp [h1, Position.posKey_inj h2, Position.posKey_inj h3]

theorem Location.lt_asymm' {a b : Location} (h : Location.lt a b) : ¬ Location.lt b a := by
  rw [Location.lt_iff_key] at *
  exact lt_asymm h

theorem Location.lt_irrefl' (a : Location) : ¬ Location.lt a a := by
  rw [Location.lt_iff_key]
  exact lt_irrefl _

theorem Location.lt_trans' {a b c : Location} (h1 : Location.lt a b) (h2 : Location.lt b c) :
    Location.lt a c := by
  rw [Location.lt_iff_key] at *
  exact lt_trans h1 h2

theorem Location.lt_trichotomy' (a b : Location) :
    Location.lt a b ∨ a = b ∨ Location.lt b a := by
  rcases lt_trichotomy a.key b.key with h | h | h
  · exact Or.inl ((Location.lt_iff_key a b).mpr h)
  · exact Or.inr (Or.inl (Location.key_inj h))
  · exact Or.inr (Or.inr ((Location.lt_iff_key b a).mpr h))

/-! ## ParserError and its merge (`gvm/language/parser.py`)

`ParserError(location, actual_token, expected_tokens)`; token identifiers hash
and compare by their integer id, so the expected set is a `Finset Nat`. -/

structure ParserError where
  location : Location
  actual_token : Nat
  expected_tokens : Finset Nat
deriving DecidableEq

/-- `ParserError.merge`: Python exceptions are always truthy, so `not lhs`
is exactly `lhs is None`. -/
def ParserError.merge : Option ParserError → Option ParserError → Option ParserError
  | none, rhs => rhs
  | some lhs, none => some lhs
  | some lhs, some rhs =>
    if Location.lt lhs.location rhs.location then some rhs
    else if lhs.location = rhs.location then
      some ⟨lhs.location, lhs.actual_token, lhs.expected_tokens ∪ rhs.expected_tokens⟩
    else some lhs

theorem Location.lt_ne {a b : Location} (h : Location.lt a b) : a ≠ b :=
  fun he => absurd (he ▸ h) (Location.lt_irrefl' b)

theorem ParserError.merge_none_right : ∀ e, ParserError.merge e none = e := by
  intro e; cases e <;> rfl

theorem ParserError.merge_lt {l r : ParserError} (h : Location.lt l.location r.location) :
    ParserError.merge (some l) (some r) = some r := by
  simp [ParserError.merge, h]

theorem ParserError.merge_loc_eq {l r : ParserError} (h : l.location = r.location) :
    ParserError.merge (some l) (some r)
      = some ⟨l.location, l.actual_token, l.expected_tokens ∪ r.expected_tokens⟩ := by
  have h1 : ¬ Location.lt l.location r.location := by
    rw [h]; exact Location.lt_irrefl' _
  show (if Location.lt l.location r.location then some r
    else if l.location = r.location then
      some ⟨l.location, l.actual_token, l.expected_tokens ∪ r.expected_tokens⟩
    else some l) = _
  rw [if_neg h1, if_pos h]

theorem ParserError.merge_gt {l r : ParserError} (h : Location.lt r.location l.location) :
    ParserError.merge (some l) (some r) = some l := by
  have h1 : ¬ Location.lt l.location r.location := Location.lt_asymm' h
  have h2 : l.location ≠ r.location := (Location.lt_ne h).symm
  simp [ParserError.merge, h1, h2]

theorem ParserError.merge_assoc_some (a b c : ParserError) :
    ParserError.merge (ParserError.merge (some a) (some b)) (some c)
      = ParserError.merge (some a) (ParserError.merge (some b) (some c)) := by
  rcases Location.lt_trichotomy' a.location b.location with hab | hab | hab
  · rw [ParserError.merge_lt hab]
    rcases Location.lt_trichotomy' b.location c.location with hbc | hbc | hbc
    · rw [ParserError.merge_lt hbc, ParserError.merge_lt (Location.lt_trans' hab hbc)]
    · rw [ParserError.merge_loc_eq hbc,
        @ParserError.merge_lt a ⟨b.location, b.actual_token,
          b.expected_tokens ∪ c.expected_tokens⟩ hab]
    · rw [ParserError.merge_gt hbc, ParserError.merge_lt hab]
  · rw [ParserError.merge_loc_eq hab]
    rcases Location.lt_trichotomy' b.location c.location with hbc | hbc | hbc
    · have hac : Location.lt a.location c.location := hab ▸ hbc
      rw [@ParserError.merge_lt ⟨a.location, a.actual_token,
          a.expected_tokens ∪ b.expected_tokens⟩ c hac,
        ParserError.merge_lt hbc, ParserError.merge_lt hac]
    · have hac : a.location = c.location := hab.trans hbc
      rw [@ParserError.merge_loc_eq ⟨a.location, a.actual_token,
          a.expected_tokens ∪ b.expected_tokens⟩ c hac,
        ParserError.merge_loc_eq hbc,
        @ParserError.merge_loc_eq a ⟨b.location, b.actual_token,
          b.expected_tokens ∪ c.expected_tokens⟩ hab]
      simp [Finset.union_assoc]
    · have hca : Location.lt c.location a.location := hab ▸ hbc
      rw [@ParserError.merge_gt ⟨a.location, a.actual_token,
          a.expected_tokens ∪ b.expected_tokens⟩ c hca,
        ParserError.merge_gt hbc, ParserError.merge_loc_eq hab]
  · rw [ParserError.merge_gt hab]
    rcases Location.lt_trichotomy' b.location c.location with hbc | hbc | hbc
    · rw [ParserError.merge_lt hbc]
    · have hca : Location.lt c.location a.location := hbc ▸ hab
      rw [ParserError.merge_loc_eq hbc,
        @ParserError.merge_gt a c hca,
        @ParserError.merge_gt a ⟨b.location, b.actual_token,
          b.expected_tokens ∪ c.expected_tokens⟩ hab]
    · rw [ParserError.merge_gt hbc, @ParserError.merge_gt a b hab,
        @ParserError.merge_gt a c (Location.lt_trans' hbc hab)]

/-- C6: `ParserError.merge` picks the argument with the lexicographically later
location; on equal locations it keeps that location (and the left actual token)
and unions the `expected_tokens` sets; `None` is a two-sided identity; the
operation is associative and commutative whenever the two locations differ. -/
theorem C6_merge_algebra :
    (∀ e, ParserError.merge none e = e) ∧
    (∀ e, ParserError.merge e none = e) ∧
    (∀ l r : ParserError, Location.lt l.location r.location →
        ParserError.merge (some l) (some r) = some r) ∧
    (∀ l r : ParserError, Location.lt r.location l.location →
        ParserError.merge (some l) (some r) = some l) ∧
    (∀ l r : ParserError, l.location = r.location →
        ParserError.merge (some l) (some r)
          = some ⟨l.location, l.actual_token, l.expected_tokens ∪ r.expected_tokens⟩) ∧
    (∀ a b c, ParserError.merge (ParserError.merge a b) c
        = ParserError.merge a (ParserError.merge b c)) ∧
    (∀ l r : ParserError, l.location ≠ r.location →
        ParserError.merge (some l) (some r) = ParserError.merge (some r) (some l)) := by
  refine ⟨fun e => rfl, ParserError.merge_none_right, fun l r h => ParserError.merge_lt h,
    fun l r h => ParserError.merge_gt h, fun l r h => ParserError.merge_loc_eq h, ?_, ?_⟩
  · intro a b c
    cases a with
    | none => rfl
    | some a =>
      cases b with
      | none => rfl
      | some b =>
        cases c with
        | none => rw [ParserError.merge_none_right, ParserError.merge_none_right]
        | some c => exact ParserError.merge_assoc_some a b c
  · intro l r h
    rcases Location.lt_trichotomy' l.location r.location with hlt | heq | hgt
    · rw [ParserError.merge_lt hlt, ParserError.merge_gt hlt]
    · exact absurd heq h
    · rw [ParserError.merge_gt hgt, ParserError.merge_lt hgt]

/-- Witness for C6 at concrete errors on distinct locations. -/
theorem C6_merge_algebra_witness :
    ParserError.merge
        (some ⟨⟨"f", ⟨1, 1⟩, ⟨1, 1⟩⟩, 5, {7}⟩) (some ⟨⟨"f", ⟨2, 1⟩, ⟨2, 3⟩⟩, 6, {8}⟩)
      = some ⟨⟨"f", ⟨2, 1⟩, ⟨2, 3⟩⟩, 6, {8}⟩ :=
  C6_merge_algebra.2.2.1 ⟨⟨"f", ⟨1, 1⟩, ⟨1, 1⟩⟩, 5, {7}⟩ ⟨⟨"f", ⟨2, 1⟩, ⟨2, 3⟩⟩, 6, {8}⟩
    (Or.inr ⟨rfl, Or.inl (Or.inl (by decide))⟩)

/-! ## Tokens, runtime values, parser state (`gvm/language/parser.py`)

Python-side runtime values flowing through combinators: `None`, syntax tokens,
tuples and lists (produced by namespace concatenation), and user nodes built by
actions (kept abstract by a tag).  A computation yields `ok`, raises a
`ParserError` (`perr`), or aborts abnormally (`crash`: `KeyError`,
`IndexError`, `StopIteration`, `TypeError`, or nontermination fuel). -/

structure SyntaxToken where
  id : Nat
  value : String
  location : Location
deriving DecidableEq, Repr

inductive Value where
  | pyNone
  | vtoken (t : SyntaxToken)
  | vtuple (vs : List Value)
  | vlist (vs : List Value)
  | vnode (tag : Nat)

/-- The parser state: the append-only token buffer (modelled as the full,
already materialized token stream, the last element being `<EOF>`), the cursor
`__position`, the packrat memo `__memory`, and `scanner.eof_id`. -/
structure ParserState where
  tokens : List SyntaxToken
  position : Nat
  memory : List ((Nat × Nat) × (Value × Option ParserError))
  eof_id : Nat

inductive PyResult (α : Type) where
  | ok (v : α) (st : ParserState)
  | perr (e : ParserError) (st : ParserState)
  | crash (st : ParserState)

/-- `self.__memory.get(key, None)`; the memo key is `(position, parselet id)`. -/
def lookupMemo : List ((Nat × Nat) × (Value × Option ParserError)) → Nat × Nat →
    Option (Value × Option ParserError)
  | [], _ => none
  | (k, v) :: rest, key => if k = key then some v else lookupMemo rest key

/-- Python dict lookup on string keys (`KeyError` is `none` at call sites). -/
def lookupStr {α : Type} : List (String × α) → String → Option α
  | [], _ => none
  | (k, v) :: rest, key => if k = key then some v else lookupStr rest key

/-- `Parser.current_token`: `self.__tokens[self.__position]`; an out-of-range
index is Python's `IndexError`, surfaced as `none` here. -/
def Parser.current_token (st : ParserState) : Option SyntaxToken :=
  st.tokens.get? st.position

/-- `Parser.advance`: returns the current token; unless it is `<EOF>` the
cursor moves right and the buffer is refilled from the tokenizer (with the
stream fully materialized, running past its end is a crash). -/
def Parser.advance (st : ParserState) : PyResult SyntaxToken :=
  match st.tokens.get? st.position with
  | none => .crash st
  | some token =>
    if token.id ≠ st.eof_id then
      if st.position + 1 < st.tokens.length then
        .ok token { st with position := st.position + 1 }
      else .crash { st with position := st.position + 1 }
    else .ok token st

/-- `Parser.consume`: advance when the current token id matches, otherwise
raise `ParserError(current.location, current.id, {index})` (via
`Parser.error`). -/
def Parser.consume (st : ParserState) (index : Nat) : PyResult SyntaxToken :=
  match Parser.current_token st with
  | none => .crash st
  | some tok =>
    if tok.id = index then Parser.advance st
    else .perr ⟨tok.location, tok.id, {index}⟩ st

/-- `Parser.backtrack` as a scoped guard around a body: the saved position is
restored only when a `ParserError` escapes the body; a normal return (or a
non-`ParserError` abort) leaves the position wherever the body put it. -/
def Parser.backtrackScope {α : Type} (body : ParserState → PyResult α) (st : ParserState) :
    PyResult α :=
  match body st with
  | .ok v st' => .ok v st'
  | .perr e st' => .perr e { st' with position := st.position }
  | .crash st' => .crash st'

/-- `Parser.parselet`, with `grammar.tables` abstracted into the `tables`
oracle (a function of the parselet id, the effective priority and the parser
state).  Notes tied to the source:
* `priority = priority or 0` sends both `None` and `0` to `0`;
* the memo key is `(self.__position, parser_id)` — the priority is not part
  of the key;
* `if not result:` tests a cached value that is always a 2-tuple, hence
  always truthy, so a hit short-circuits;
* the memo is written only after `table(self, priority)` returns normally; a
  raised `ParserError` propagates without touching the memo. -/
def Parser.parselet (tables : Nat → Int → ParserState → PyResult (Value × Option ParserError))
    (parser_id : Nat) (priority : Option Int) (st : ParserState) :
    PyResult (Value × Option ParserError) :=
  match lookupMemo st.memory (st.position, parser_id) with
  | some result => .ok result st
  | none =>
    match tables parser_id (priority.getD 0) st with
    | .ok result st' =>
        .ok result { st' with memory := ((st.position, parser_id), result) :: st'.memory }
    | .perr e st' => .perr e st'
    | .crash st' => .crash st'

/-! ## Claims C2 and C9: the packrat memo -/

/-- A table oracle whose output depends on the priority it is handed. -/
def prioTables : Nat → Int → ParserState → PyResult (Value × Option ParserError) :=
  fun _ q st => .ok (.vnode q.toNat, none) st

/-- A table oracle that aborts if it is ever consulted. -/
def crashTables : Nat → Int → ParserState → PyResult (Value × Option ParserError) :=
  fun _ _ st => .crash st

/-- A table oracle that always raises a `ParserError`. -/
def raisingTables : Nat → Int → ParserState → PyResult (Value × Option ParserError) :=
  fun _ _ st => .perr ⟨⟨"f", ⟨1, 1⟩, ⟨1, 1⟩⟩, 2, {3}⟩ st

/-- C9: the memo key is `(position, parselet id)` — the priority argument is
not part of it.  Once `parselet(p, q1)` has returned normally at position `i`,
its result is stored under `(i, p)`, and any later call `parselet(p, q2)` made
at position `i` with that entry present returns the identical cached result and
leaves the state unchanged — for an arbitrary `tables2` oracle, which shows the
parselet table is not consulted — even when `q2` differs from `q1` and the
table's output depends on the priority. -/
theorem C9_memo_key_ignores_priority
    (tables : Nat → Int → ParserState → PyResult (Value × Option ParserError))
    (p : Nat) (q1 : Option Int) (st st1 : ParserState) (r : Value × Option ParserError)
    (hmiss : lookupMemo st.memory (st.position, p) = none)
    (hfirst : Parser.parselet tables p q1 st = .ok r st1) :
    lookupMemo st1.memory (st.position, p) = some r ∧
    ∀ (tables2 : Nat → Int → ParserState → PyResult (Value × Option ParserError))
      (q2 : Option Int) (st2 : ParserState),
      st2.position = st.position →
      lookupMemo st2.memory (st.position, p) = some r →
      Parser.parselet tables2 p q2 st2 = .ok r st2 := by
  constructor
  · unfold Parser.parselet at hfirst
    rw [hmiss] at hfirst
    cases htab : tables p (q1.getD 0) st with
    | ok result st' =>
      rw [htab] at hfirst
      cases hfirst
      simp [lookupMemo]
    | perr e st' => rw [htab] at hfirst; cases hfirst
    | crash st' => rw [htab] at hfirst; cases hfirst
  · intro tables2 q2 st2 hpos hmem
    unfold Parser.parselet
    rw [hpos, hmem]

/-- Witness for C9: the first call ran `prioTables` under the default priority
`0`; the second call carries priority `5` and a table oracle that would abort
if consulted, yet returns the cached priority-0 result. -/
theorem C9_memo_key_ignores_priority_witness :
    Parser.parselet crashTables 9 (some 5) ⟨[], 0, [((0, 9), (.vnode 0, none))], 1⟩
      = .ok (.vnode 0, none) ⟨[], 0, [((0, 9), (.vnode 0, none))], 1⟩ :=
  (C9_memo_key_ignores_priority prioTables 9 none ⟨[], 0, [], 1⟩
      ⟨[], 0, [((0, 9), (.vnode 0, none))], 1⟩ (.vnode 0, none) rfl rfl).2
    crashTables (some 5) ⟨[], 0, [((0, 9), (.vnode 0, none))], 1⟩ rfl rfl

/-- C2 counterexample: when the parselet table raises a `ParserError`, the
exception propagates and `Parser.parselet` stores nothing — the state carried
out still has an empty memo, refuting "the failure case is stored in the memo
on first invocation". -/
theorem C2_counterexample_raise_not_cached :
    Parser.parselet raisingTables 7 none ⟨[], 0, [], 1⟩
        = .perr ⟨⟨"f", ⟨1, 1⟩, ⟨1, 1⟩⟩, 2, {3}⟩ ⟨[], 0, [], 1⟩ ∧
    lookupMemo ([] : List ((Nat × Nat) × (Value × Option ParserError))) (0, 7) = none :=
  ⟨rfl, rfl⟩

/-- C2 amended: a memo hit at `(pos, pid)` is answered from the cache without
consulting the table (the result does not depend on the `tables` oracle); a
table invocation that returns normally has its `(value, error)` pair cached
under `(pos, pid)`; but a table invocation that raises a `ParserError`
propagates the exception and leaves the memo exactly as the table left it —
raising failures are not cached, so a later attempt at the same position runs
the table again. -/
theorem C2_memo_caches_normal_results_only :
    (∀ (tables : Nat → Int → ParserState → PyResult (Value × Option ParserError))
        (p : Nat) (q : Option Int) (st : ParserState) (r : Value × Option ParserError),
        lookupMemo st.memory (st.position, p) = some r →
        Parser.parselet tables p q st = .ok r st) ∧
    (∀ (tables : Nat → Int → ParserState → PyResult (Value × Option ParserError))
        (p : Nat) (q : Option Int) (st st' : ParserState) (r : Value × Option ParserError),
        lookupMemo st.memory (st.position, p) = none →
        tables p (q.getD 0) st = .ok r st' →
        Parser.parselet tables p q st
          = .ok r { st' with memory := ((st.position, p), r) :: st'.memory }) ∧
    (∀ (tables : Nat → Int → ParserState → PyResult (Value × Option ParserError))
        (p : Nat) (q : Option Int) (st st' : ParserState) (e : ParserError),
        lookupMemo st.memory (st.position, p) = none →
        tables p (q.getD 0) st = .perr e st' →
        Parser.parselet tables p q st = .perr e st') := by
  refine ⟨?_, ?_, ?_⟩
  · intro tables p q st r h
    unfold Parser.parselet
    rw [h]
  · intro tables p q st st' r hmiss htab
    unfold Parser.parselet
    rw [hmiss, htab]
  · intro tables p q st st' e hmiss htab
    unfold Parser.parselet
    rw [hmiss, htab]

/-- Witness for the amended C2, applying the raising branch at a concrete
state: the exception comes out and the state still has an empty memo. -/
theorem C2_memo_caches_normal_results_only_witness :
    Parser.parselet raisingTables 4 none ⟨[], 0, [], 1⟩
      = .perr ⟨⟨"f", ⟨1, 1⟩, ⟨1, 1⟩⟩, 2, {3}⟩ ⟨[], 0, [], 1⟩ :=
  C2_memo_caches_normal_results_only.2.2 raisingTables 4 none
    ⟨[], 0, [], 1⟩ ⟨[], 0, [], 1⟩ ⟨⟨"f", ⟨1, 1⟩, ⟨1, 1⟩⟩, 2, {3}⟩ rfl rfl

/-! ## Combinator evaluation (`gvm/language/combinators.py`)

A combinator call yields `(result, namespace, error)`.  Recursive parselet
invocations (`parser.parselet`) are abstracted into an oracle `P`; the
enclosing parselet (`context`) contributes only its inferred `variables`
mapping.  General recursion (the `Repeat` loop, and mutual recursion through
parselet tables) is bounded by fuel; exhausting it is a `crash`, mirroring
Python nontermination. -/

/-- Elements of an iterable value; unpacking anything else (`[*old, *new]` on a
non-iterable) is a `TypeError`, i.e. `none`. -/
def iterElems : Value → Option (List Value)
  | .vtuple vs => some vs
  | .vlist vs => some vs
  | _ => none

/-- One namespace-fold step shared by `sequence` and `RepeatCombinator`:
`namespace[name] = [*namespace[name], *value] if name in namespace else value`. -/
def nsUpdate : List (String × Value) → String → Value → Option (List (String × Value))
  | [], name, v => some [(name, v)]
  | (n, old) :: rest, name, v =>
    if n = name then
      match iterElems old, iterElems v with
      | some xs, some ys => some ((n, .vlist (xs ++ ys)) :: rest)
      | _, _ => none
    else (nsUpdate rest name v).map fun r => (n, old) :: r

/-- Folds a child's namespace into the accumulator, item by item. -/
def nsUpdateAll : List (String × Value) → List (String × Value) → Option (List (String × Value))
  | ns, [] => some ns
  | ns, (n, v) :: rest =>
    match nsUpdate ns n v with
    | none => none
    | some ns2 => nsUpdateAll ns2 rest

/-- `NamedCombinator.make_namespace`: the capture is wrapped in a singleton
tuple exactly when the inner result type is not a sequence but the context
declares the name with a sequence type; `context.variables[self.name]` can
raise `KeyError` (`none`). -/
def make_namespace (ctxVars : List (String × PyType)) (inner : Combinator) (name : String)
    (result : Value) : Option (List (String × Value)) :=
  if is_sequence_type inner.result_type then some [(name, result)]
  else
    match lookupStr ctxVars name with
    | some t =>
      if is_sequence_type t then some [(name, .vtuple [result])] else some [(name, result)]
    | none => none

/-- The result triple of one combinator call. -/
abbrev CombResult := Value × List (String × Value) × Option ParserError

/-- The `sequence(parser, context, combinators)` loop: children run in order,
a raised child error is merged with the soft error and re-raised, successful
namespaces fold left-to-right, the running result is the last child's. -/
def seqLoop (eval1 : Combinator → ParserState → PyResult CombResult) :
    List Combinator → Value → List (String × Value) → Option ParserError → ParserState →
    PyResult CombResult
  | [], result, ns, error, st => .ok (result, ns, error) st
  | c :: rest, _, ns, error, st =>
    match eval1 c st with
    | .ok (r, lastNs, lastErr) st' =>
      match nsUpdateAll ns lastNs with
      | none => .crash st'
      | some ns2 => seqLoop eval1 rest r ns2 (ParserError.merge error lastErr) st'
    | .perr e st' => .perr ((ParserError.merge error (some e)).getD e) st'
    | .crash st' => .crash st'

/-- The `RepeatCombinator.__call__` loop: each iteration runs the inner
combinator under `parser.backtrack()` with the `try` OUTSIDE the `with`, so a
raised `ParserError` first restores the position and is then caught here,
closing the loop with the merged soft error. -/
def repeatLoop (eval1 : Combinator → ParserState → PyResult CombResult) (inner : Combinator) :
    Nat → List Value → List (String × Value) → Option ParserError → ParserState →
    PyResult CombResult
  | 0, _, _, _, st => .crash st
  | fuel + 1, items, ns, error, st =>
    match Parser.backtrackScope (fun st0 => eval1 inner st0) st with
    | .perr e st' => .ok (.vtuple items, ns, ParserError.merge error (some e)) st'
    | .ok (r, lastNs, lastErr) st' =>
      match nsUpdateAll ns lastNs with
      | none => .crash st'
      | some ns2 =>
        repeatLoop eval1 inner fuel (items ++ [r]) ns2 (ParserError.merge error lastErr) st'
    | .crash st' => .crash st'

/-- Evaluation of a combinator against the parser: the `__call__` methods of
`TokenCombinator`, `ParseletCombinator`, `SequenceCombinator`,
`PostfixCombinator` (which skips its first element), `NamedCombinator`
(discarding the inner namespace), `OptionalCombinator` and `RepeatCombinator`.

In `OptionalCombinator.__call__` the `try/except ParserError` sits INSIDE the
`with parser.backtrack()` block: the handler converts the exception into a
normal return before the context manager sees it, so `backtrack` never
restores the position on this path. -/
def evalC (P : Nat → Option Int → ParserState → PyResult (Value × Option ParserError))
    (ctx : List (String × PyType)) :
    Nat → Combinator → ParserState → PyResult CombResult
  | 0, _, st => .crash st
  | fuel + 1, c, st =>
    match c with
    | .tokenC tid =>
      match Parser.consume st tid with
      | .ok tok st' => .ok (.vtoken tok, [], none) st'
      | .perr e st' => .perr e st'
      | .crash st' => .crash st'
    | .parseletC pid _ prio =>
      match P pid prio st with
      | .ok (v, err) st' => .ok (v, [], err) st'
      | .perr e st' => .perr e st'
      | .crash st' => .crash st'
    | .sequenceC cs => seqLoop (fun c' st' => evalC P ctx fuel c' st') cs .pyNone [] none st
    | .postfixC cs =>
      seqLoop (fun c' st' => evalC P ctx fuel c' st') (cs.drop 1) .pyNone [] none st
    | .namedC inner name =>
      match evalC P ctx fuel inner st with
      | .ok (result, _, err) st' =>
        match make_namespace ctx inner name result with
        | some ns => .ok (result, ns, err) st'
        | none => .crash st'
      | .perr e st' => .perr e st'
      | .crash st' => .crash st'
    | .optionalC inner =>
      Parser.backtrackScope
        (fun st0 =>
          match evalC P ctx fuel inner st0 with
          | .ok r st' => .ok r st'
          | .perr e st' => .ok (.pyNone, [], some e) st'
          | .crash st' => .crash st')
        st
    | .repeatC inner =>
      repeatLoop (fun c' st' => evalC P ctx fuel c' st') inner (fuel + 1) [] [] none st

/-! ## Claims C1 and C10: Optional backtracking and Named captures -/

/-- A parselet oracle that aborts if consulted (the combinators under test
contain no parselet references). -/
def crashOracleP : Nat → Option Int → ParserState → PyResult (Value × Option ParserError) :=
  fun _ _ st => .crash st

/-- Token stream `A C <EOF>` (ids 3, 7, 1) for the C1 scenario. -/
def optState : ParserState :=
  ⟨[⟨3, "a", ⟨"t", ⟨1, 1⟩, ⟨1, 2⟩⟩⟩, ⟨7, "c", ⟨"t", ⟨1, 2⟩, ⟨1, 3⟩⟩⟩,
    ⟨1, "", ⟨"t", ⟨1, 3⟩, ⟨1, 3⟩⟩⟩], 0, [], 1⟩

/-- C1 (code bug): `Optional(Sequence(Token 3, Token 4))` against the stream
`A C <EOF>`: the inner sequence consumes `A` (position moves to 1) and then
fails on `C`; `OptionalCombinator.__call__` catches the `ParserError` inside
the `with parser.backtrack()` block, so the handler returns `(None, {}, error)`
normally and the backtrack guard never fires — the position stays at 1 instead
of being restored to the saved 0. -/
theorem C1_optional_does_not_restore_position :
    evalC crashOracleP [] 3 (.optionalC (.sequenceC [.tokenC 3, .tokenC 4])) optState
        = .ok (.pyNone, [], some ⟨⟨"t", ⟨1, 2⟩, ⟨1, 3⟩⟩, 7, {4}⟩)
            { optState with position := 1 } ∧
    optState.position = 0 :=
  ⟨rfl, rfl⟩

/-- C10: evaluating `Named(name, c)` (when `c` returns normally and the
context's variable table declares `name`) yields `c`'s result unchanged, a
namespace whose only key is `name`, bound to the result wrapped in a singleton
tuple exactly when the context declares `name` with a sequence type while `c`'s
own result type is not a sequence, and the soft error passed through; the
namespace `ns` gathered by Named combinators nested inside `c` is discarded
(the conclusion does not depend on `ns`). -/
theorem C10_named_combinator_namespace
    (P : Nat → Option Int → ParserState → PyResult (Value × Option ParserError))
    (ctx : List (String × PyType)) (fuel : Nat) (c : Combinator) (name : String)
    (st st' : ParserState) (r : Value) (ns : List (String × Value)) (e : Option ParserError)
    (t : PyType)
    (hinner : evalC P ctx fuel c st = .ok (r, ns, e) st')
    (hvar : lookupStr ctx name = some t) :
    evalC P ctx (fuel + 1) (.namedC c name) st
      = .ok (r, [(name, if is_sequence_type c.result_type then r
          else if is_sequence_type t then .vtuple [r] else r)], e) st' := by
  have hstep : evalC P ctx (fuel + 1) (.namedC c name) st
      = match evalC P ctx fuel c st with
        | .ok (result, _, err) st' =>
          match make_namespace ctx c name result with
          | some ns => .ok (result, ns, err) st'
          | none => .crash st'
        | .perr e st' => .perr e st'
        | .crash st' => .crash st' := rfl
  rw [hstep, hinner]
  unfold make_namespace
  cases hseq : is_sequence_type c.result_type
  · cases hts : is_sequence_type t <;> simp [hseq, hvar, hts]
  · simp [hseq]

/-- Token stream for the C10 witness: one token of id 5, then `<EOF>`. -/
def w10State : ParserState :=
  ⟨[⟨5, "v", ⟨"w", ⟨1, 1⟩, ⟨1, 2⟩⟩⟩, ⟨1, "", ⟨"w", ⟨1, 2⟩, ⟨1, 2⟩⟩⟩], 0, [], 1⟩

/-- Witness for C10: a scalar-typed inner combinator under a context declaring
`x : Sequence[SyntaxToken]` — the capture comes out wrapped in a singleton
tuple. -/
theorem C10_named_combinator_namespace_witness :
    evalC crashOracleP [("x", .sequence (.scalar "SyntaxToken"))] 2
        (.namedC (.tokenC 5) "x") w10State
      = .ok (.vtoken ⟨5, "v", ⟨"w", ⟨1, 1⟩, ⟨1, 2⟩⟩⟩,
          [("x", .vtuple [.vtoken ⟨5, "v", ⟨"w", ⟨1, 1⟩, ⟨1, 2⟩⟩⟩])], none)
          { w10State with position := 1 } :=
  C10_named_combinator_namespace crashOracleP [("x", .sequence (.scalar "SyntaxToken"))] 1
    (.tokenC 5) "x" w10State { w10State with position := 1 }
    (.vtoken ⟨5, "v", ⟨"w", ⟨1, 1⟩, ⟨1, 2⟩⟩⟩) [] none
    (.sequence (.scalar "SyntaxToken")) rfl rfl

/-! ## Scanner step (`gvm/language/scanner.py`, `Scanner.__match`)

A compiled regex is abstracted to its anchored match function
`pattern.match(content, start).end()`; `cast`-irrelevant fields of
`SyntaxPattern` (location, implicitness) play no role in `__match` and are
omitted.  The buffer is the list of characters of the source; Python slices
`buffer[p:e]` become `(buffer.drop p).take (e - p)`.  Location bookkeeping is
orthogonal to the claims and not modelled; a step yields the token id, its
textual value and the new cursor. -/

structure SyntaxPattern where
  token_id : Nat
  priority : Int
  matchEnd : List Char → Nat → Option Nat

/-- `bisect.insort_right` keyed on the pattern priority (`attr` `order=True`
compares `SyntaxPattern` by `priority` alone): insert after equal keys. -/
def insortRight (x : SyntaxPattern) : List SyntaxPattern → List SyntaxPattern
  | [] => [x]
  | y :: rest => if x.priority < y.priority then x :: y :: rest else y :: insortRight x rest

structure ScanResult where
  token_id : Nat
  value : List Char
  new_position : Nat
deriving DecidableEq, Repr

/-- Forcing the `results` generator of `Scanner.__match`: each element
evaluates `(pattern.id, pattern.match(...))` — but `SyntaxPattern` defines no
`id` attribute (its field is `token_id`, and no property or `__getattr__`
exists anywhere in the package), so with a nonempty pattern list the very
first element raises `AttributeError` (`none`) before any match is examined.
Only the empty pattern list yields a (necessarily empty) results tuple. -/
def scanResults (patterns : List SyntaxPattern) (_buffer : List Char) (_position : Nat) :
    Option (List (Nat × Nat)) :=
  match patterns with
  | [] => some []
  | _ :: _ => none

/-- Python `max` over a generator, `none` on the empty one. -/
def pymax : List Nat → Option Nat
  | [] => none
  | x :: xs => some (xs.foldl max x)

/-- `next((token_id, match) for ... if match.end() == max_position)`: the
first listed result attaining the given end. -/
def findFirstEq : List (Nat × Nat) → Nat → Option (Nat × Nat)
  | [], _ => none
  | r :: rest, m => if r.2 = m then some r else findFirstEq rest m

/-- One `Scanner.__match` step.  An `AttributeError` while forcing the
results tuple (any nonempty pattern list) propagates out of the step (`none`),
so the selection branch below — greatest end, first listed result on a tie —
is dead code on this snapshot; it is transcribed from the source all the same.
In the no-match branch the source does `self.position += 1` inside the `else`
AND the shared `self.position += len(value)` afterwards, so the cursor moves
by two for a one-character error token; `none` there is Python's `IndexError`
on an empty remainder, unreachable under the `tokenize` loop guard
`position < length`. -/
def Scanner.matchStep (patterns : List SyntaxPattern) (error_id : Nat) (buffer : List Char)
    (position : Nat) : Option ScanResult :=
  match scanResults patterns buffer position with
  | none => none
  | some results =>
    match pymax (results.map Prod.snd) with
    | some max_position =>
      match findFirstEq results max_position with
      | some (token_id, e) =>
        some ⟨token_id, (buffer.drop position).take (e - position),
          position + ((buffer.drop position).take (e - position)).length⟩
      | none => none
    | none =>
      match buffer.get? position with
      | some ch => some ⟨error_id, [ch], position + 1 + 1⟩
      | none => none

/-! ## Claims C3 and C5: the scanner step with and without patterns -/

/-- Two one-character patterns (match functions would succeed at any cursor),
priorities 1 and 2; the list `[cexPattern1, cexPattern2]` is exactly what two
`bisect.insort_right` calls produce, i.e. a priority-sorted pattern list. -/
def cexPattern1 : SyntaxPattern := ⟨10, 1, fun _ pos => some (pos + 1)⟩

def cexPattern2 : SyntaxPattern := ⟨20, 2, fun _ pos => some (pos + 1)⟩

/-- C3 counterexample: with the two tying patterns registered, the claim
requires the later (priority 2) pattern's token 20 to be emitted — but
`Scanner.__match` reads `pattern.id`, an attribute `SyntaxPattern` does not
have (the field is `token_id`), so forcing the results tuple raises
AttributeError before any match is examined and NO token is emitted at all. -/
theorem C3_counterexample_attribute_error_no_emission :
    insortRight cexPattern2 (insortRight cexPattern1 []) = [cexPattern1, cexPattern2] ∧
    Scanner.matchStep [cexPattern1, cexPattern2] 2 ['a', 'b'] 0 ≠ some ⟨20, ['a'], 1⟩ ∧
    Scanner.matchStep [cexPattern1, cexPattern2] 2 ['a', 'b'] 0 = none := by
  refine ⟨rfl, by decide, rfl⟩

/-- C3 amended: on this snapshot, every scanner step taken with at least one
registered pattern emits no token at all: forcing the results generator
raises AttributeError (`scanner.py` reads `pattern.id`; the `SyntaxPattern`
field is `token_id`, an evidently half-finished rename also surviving in
`test_grammar.py`), so the longest-match/tie-break selection the claim
describes is dead code and the step aborts for every buffer and cursor. -/
theorem C3_amended_attribute_error_kills_selection
    (p : SyntaxPattern) (ps : List SyntaxPattern) (error_id : Nat) (buffer : List Char)
    (position : Nat) :
    scanResults (p :: ps) buffer position = none ∧
    Scanner.matchStep (p :: ps) error_id buffer position = none :=
  ⟨rfl, rfl⟩

/-- Witness for the amended C3 at a concrete one-pattern grammar. -/
theorem C3_amended_attribute_error_kills_selection_witness :
    scanResults [cexPattern1] ['x'] 0 = none ∧
    Scanner.matchStep [cexPattern1] 7 ['x'] 0 = none :=
  C3_amended_attribute_error_kills_selection cexPattern1 [] 7 ['x'] 0

/-- C5 (code bug): with no pattern matching at cursor 0 of `"?!"`, the scanner
emits the one-character `<ERROR>` token (id 2) with value `"?"` — but the
cursor lands on 2, not 1: the `else` branch does `self.position += 1` and then
the shared `self.position += len(value)` adds 1 again, silently skipping the
following character. -/
theorem C5_error_token_skips_a_character :
    Scanner.matchStep [] 2 ['?', '!'] 0 = some ⟨2, ['?'], 0 + 1 + 1⟩ ∧
    Scanner.matchStep [] 2 ['?', '!'] 0 ≠ some ⟨2, ['?'], 0 + 1⟩ := by
  exact ⟨rfl, by decide⟩

/-! ## Claim C8: `Repeat(Named(n, c))` variable inference -/

/-- C8 counterexample: for `c = Optional(Token)`, whose `result_type` is
`Optional[SyntaxToken]`, `RepeatCombinator.variables` maps the inner type
through `make_sequence_type`, which UNWRAPS the `Optional` first — the
inferred type is `Sequence[SyntaxToken]`, not `Sequence[Optional[SyntaxToken]]
= Sequence[c.result_type]` as the claim states. -/
theorem C8_counterexample_optional_shape :
    (Combinator.repeatC (.namedC (.optionalC (.tokenC 3)) "n")).variables
      ≠ some [("n", PyType.sequence (Combinator.optionalC (.tokenC 3)).result_type)] := by
  have h1 : (Combinator.repeatC (.namedC (.optionalC (.tokenC 3)) "n")).variables
      = some [("n", PyType.sequence (.scalar "SyntaxToken"))] := by
    simp [Combinator.variables, Combinator.result_type, make_sequence_type,
      unpack_type_argument, pyOptional]
  have h2 : (Combinator.optionalC (.tokenC 3)).result_type
      = PyType.optional (.scalar "SyntaxToken") := by
    simp [Combinator.result_type, pyOptional]
  rw [h1, h2]
  decide

/-- C8 amended: for every name `n` and combinator `c`,
`Repeat(Named(n, c)).variables` maps `n` to
`Sequence[unpack_type_argument(c.result_type)]` — that is, `c`'s result type
with one outer `Optional`/`Sequence` wrapper stripped.  This equals
`Sequence[c.result_type]` exactly in the scalar case; an `Optional[T]` result
becomes `Sequence[T]` (the optionality is dropped) and a `Sequence[T]` result
stays `Sequence[T]` (not `Sequence[Sequence[T]]`). -/
theorem C8_amended_repeat_named_variables (n : String) (c : Combinator) :
    (Combinator.repeatC (.namedC c n)).variables
        = some [(n, PyType.sequence (unpack_type_argument c.result_type))] ∧
    (∀ s, c.result_type = .scalar s →
      (Combinator.repeatC (.namedC c n)).variables = some [(n, .sequence (.scalar s))]) ∧
    (∀ t, c.result_type = .optional t →
      (Combinator.repeatC (.namedC c n)).variables = some [(n, .sequence t)]) ∧
    (∀ t, c.result_type = .sequence t →
      (Combinator.repeatC (.namedC c n)).variables = some [(n, .sequence t)]) := by
  have hbase : (Combinator.repeatC (.namedC c n)).variables
      = some [(n, make_sequence_type c.result_type)] := by
    simp [Combinator.variables]
  refine ⟨?_, ?_, ?_, ?_⟩
  · rw [hbase]
    rfl
  · intro s hs
    rw [hbase, hs]
    rfl
  · intro t ht
    rw [hbase, ht]
    rfl
  · intro t ht
    rw [hbase, ht]
    rfl

/-- Witness for the amended C8 at the Optional-shaped inner combinator. -/
theorem C8_amended_repeat_named_variables_witness :
    (Combinator.repeatC (.namedC (.optionalC (.tokenC 3)) "n")).variables
      = some [("n", PyType.sequence (.scalar "SyntaxToken"))] :=
  (C8_amended_repeat_named_variables "n" (.optionalC (.tokenC 3))).2.2.1
    (.scalar "SyntaxToken") (by simp [Combinator.result_type, pyOptional])

/-! ## Claim C4: Pratt climbing candidates (`gvm/language/grammar.py`,
`PrattTable.__call__`)

A registered parselet is reduced to its priority and an identity tag; its
combinator and action are captured by the `choice` oracle standing for
`parser.choice(parselets, left)`.  `bisect.insort_right` keeps each postfix
list sorted ascending by priority, expressed below as a `Pairwise (≤)`
hypothesis. -/

structure Parselet where
  priority : Int
  tag : Nat
deriving DecidableEq, Repr

/-- `itertools.takewhile` specialised to parselet lists. -/
def takewhile (pred : Parselet → Bool) : List Parselet → List Parselet
  | [] => []
  | x :: rest => if pred x then x :: takewhile pred rest else []

/-- The candidate computation of the climbing loop:
`takewhile(lambda parselet: priority < parselet.priority,
self.postfixes.get(token, ()))`. -/
def prattCandidates (priority : Int) (postfixes : List Parselet) : List Parselet :=
  takewhile (fun parselet => decide (priority < parselet.priority)) postfixes

/-- The `while True` climbing loop of `PrattTable.__call__`: loop while the
candidate prefix is nonempty; a successful choice updates `left` and merges
the soft error; a raised choice error merges and closes the loop returning the
current `left`. -/
def prattClimb (postfixesOf : Nat → List Parselet)
    (choice : List Parselet → Value → ParserState → PyResult (Value × Option ParserError))
    (priority : Int) :
    Nat → Value → Option ParserError → ParserState → PyResult (Value × Option ParserError)
  | 0, _, _, st => .crash st
  | fuel + 1, left, error, st =>
    match Parser.current_token st with
    | none => .crash st
    | some tok =>
      match prattCandidates priority (postfixesOf tok.id) with
      | [] => .ok (left, error) st
      | p :: ps =>
        match choice (p :: ps) left st with
        | .ok (l2, lastErr) st' =>
          prattClimb postfixesOf choice priority fuel l2 (ParserError.merge error lastErr) st'
        | .perr e st' => .ok (left, ParserError.merge error (some e)) st'
        | .crash st' => .crash st'

/-- `PrattTable.__call__`: nud dispatch on the current token (raising
"expected one of prefix_tokens" when no prefix parselet is keyed on it),
then the climbing loop. -/
def prattCall (prefixesOf postfixesOf : Nat → List Parselet) (prefix_tokens : Finset Nat)
    (choicePre : List Parselet → ParserState → PyResult (Value × Option ParserError))
    (choice : List Parselet → Value → ParserState → PyResult (Value × Option ParserError))
    (priority : Int) (fuel : Nat) (st : ParserState) :
    PyResult (Value × Option ParserError) :=
  match Parser.current_token st with
  | none => .crash st
  | some tok =>
    match prefixesOf tok.id with
    | [] => .perr ⟨tok.location, tok.id, prefix_tokens⟩ st
    | p :: ps =>
      match choicePre (p :: ps) st with
      | .ok (left, error) st' => prattClimb postfixesOf choice priority fuel left error st'
      | .perr e st' => .perr e st'
      | .crash st' => .crash st'

theorem mem_takewhile {p : Parselet → Bool} :
    ∀ {l : List Parselet} {x : Parselet}, x ∈ takewhile p l → p x = true := by
  intro l
  induction l with
  | nil => intro x hx; cases hx
  | cons y ys ih =>
    intro x hx
    unfold takewhile at hx
    by_cases hy : p y = true
    · rw [if_pos hy] at hx
      rcases List.mem_cons.mp hx with hx | hx
      · rw [hx]; exact hy
      · exact ih hx
    · rw [if_neg hy] at hx
      cases hx

theorem takewhile_all {p : Parselet → Bool} :
    ∀ l : List Parselet, (∀ x ∈ l, p x = true) → takewhile p l = l := by
  intro l
  induction l with
  | nil => intro; rfl
  | cons y ys ih =>
    intro h
    unfold takewhile
    rw [if_pos (h y (List.mem_cons_self y ys)),
      ih (fun x hx => h x (List.mem_cons_of_mem y hx))]

/-- A low- and a high-priority postfix parselet registered on the same token,
listed ascending exactly as `insort_right` keeps them. -/
def lowPostfix : Parselet := ⟨1, 0⟩

def highPostfix : Parselet := ⟨5, 1⟩

/-- Token and state for the C4 scenario. -/
def prattState : ParserState := ⟨[⟨4, "+", ⟨"p", ⟨1, 1⟩, ⟨1, 2⟩⟩⟩], 0, [], 9⟩

/-- A choice oracle that would succeed with a fresh value if consulted. -/
def loudChoice : List Parselet → Value → ParserState → PyResult (Value × Option ParserError) :=
  fun _ _ st => .ok (.vnode 99, none) st

/-- C4 counterexample: at priority `P = 3`, the postfix list
`[priority 1, priority 5]` (sorted ascending) contains a parselet with
priority strictly greater than `P` — the claim says it must be a candidate —
but `takewhile` stops at the leading priority-1 entry, the candidate set comes
out empty, and the loop returns `left` untouched without ever consulting the
choice oracle. -/
theorem C4_counterexample_takewhile_skips_high_priority :
    prattCandidates 3 [lowPostfix, highPostfix] = [] ∧
    [lowPostfix, highPostfix].filter (fun parselet => decide (3 < parselet.priority))
      = [highPostfix] ∧
    List.Pairwise (fun a b => a.priority ≤ b.priority) [lowPostfix, highPostfix] ∧
    prattClimb (fun _ => [lowPostfix, highPostfix]) loudChoice 3 2 (.vnode 0) none prattState
      = .ok (.vnode 0, none) prattState := by
  refine ⟨rfl, rfl, by decide, rfl⟩

/-- C4 amended: every candidate the loop considers has priority strictly
greater than `P`, but the candidate set is the longest `takewhile` PREFIX of
the ascending-sorted postfix list, not the full filter: it is either empty or
the whole list, so registered parselets with priority above `P` are skipped
whenever a lower-priority parselet for the same token sits ahead of them.
When the prefix is empty the loop returns the current `left` (and soft error)
with the state unchanged. -/
theorem C4_amended_candidates_are_takewhile_front (P : Int) (l : List Parselet) :
    (∀ x ∈ prattCandidates P l, P < x.priority) ∧
    (List.Pairwise (fun a b => a.priority ≤ b.priority) l →
      prattCandidates P l = [] ∨ prattCandidates P l = l) ∧
    (∀ (postfixesOf : Nat → List Parselet)
        (choice : List Parselet → Value → ParserState → PyResult (Value × Option ParserError))
        (fuel : Nat) (left : Value) (error : Option ParserError) (st : ParserState)
        (tok : SyntaxToken),
      Parser.current_token st = some tok →
      prattCandidates P (postfixesOf tok.id) = [] →
      prattClimb postfixesOf choice P (fuel + 1) left error st = .ok (left, error) st) := by
  refine ⟨?_, ?_, ?_⟩
  · intro x hx
    exact of_decide_eq_true (mem_takewhile hx)
  · intro hsorted
    cases l with
    | nil => exact Or.inl rfl
    | cons y ys =>
      by_cases hy : P < y.priority
      · right
        unfold prattCandidates takewhile
        rw [if_pos (decide_eq_true hy)]
        have hall : ∀ x ∈ ys, decide (P < x.priority) = true := by
          intro x hx
          exact decide_eq_true
            (lt_of_lt_of_le hy ((List.pairwise_cons.mp hsorted).1 x hx))
        rw [takewhile_all ys hall]
      · left
        unfold prattCandidates takewhile
        rw [if_neg (by simpa using hy)]
  · intro postfixesOf choice fuel left error st tok hcur hcand
    simp [prattClimb, hcur, hcand]

/-- Witness for the amended C4: empty-candidate exit at the concrete state. -/
theorem C4_amended_candidates_are_takewhile_front_witness :
    prattClimb (fun _ => [lowPostfix, highPostfix]) loudChoice 3 7 (.vnode 2) none prattState
      = .ok (.vnode 2, none) prattState :=
  (C4_amended_candidates_are_takewhile_front 3 [lowPostfix, highPostfix]).2.2
    (fun _ => [lowPostfix, highPostfix]) loudChoice 6 (.vnode 2) none prattState
    ⟨4, "+", ⟨"p", ⟨1, 1⟩, ⟨1, 2⟩⟩⟩ rfl rfl

/-! ## Grammar registration and extension (`gvm/language/grammar.py`)

Symbol identifiers are `attr` dataclasses whose equality and hash use the
integer `id` alone; the records below keep the other fields so that the claim
about which ids land in the bracket sets can name them.  The `location`
fields (Python call-frame introspection) are not semantic and are omitted.
Only the `Grammar` fields the claim is about are modelled: the symbol/token/
parselet tables, trivia, and the four bracket collections; the pattern list
and the parselet tables are orthogonal to them (the pattern-merge and
table-merge phases of `extend` neither read nor write trivia or brackets). -/

def isUpperAZ (c : Char) : Bool := 'A' ≤ c && c ≤ 'Z'

def isLowerAZ (c : Char) : Bool := 'a' ≤ c && c ≤ 'z'

/-- `re.sub('([A-Z]+)', r' \1', s)`: one space before each maximal run of
uppercase letters; the flag records whether the previous char was uppercase. -/
def subUpperRuns : List Char → Bool → List Char
  | [], _ => []
  | c :: rest, prevUpper =>
    if isUpperAZ c && !prevUpper then ' ' :: c :: subUpperRuns rest true
    else c :: subUpperRuns rest (isUpperAZ c)

/-- `re.sub('([A-Z][a-z]+)', r' \1', s)`: a space before each uppercase letter
directly followed by a lowercase one (such a letter is never inside an earlier
match, so the char-wise scan agrees with the regex). -/
def subUpperLower : List Char → List Char
  | [] => []
  | [c] => [c]
  | c :: d :: rest =>
    if isUpperAZ c && isLowerAZ d then ' ' :: c :: subUpperLower (d :: rest)
    else c :: subUpperLower (d :: rest)

/-- Python `str.split()` on spaces, dropping empty chunks. -/
def splitWs : List Char → List Char → List (List Char)
  | [], acc => if acc.isEmpty then [] else [acc.reverse]
  | c :: rest, acc =>
    if c = ' ' then
      if acc.isEmpty then splitWs rest [] else acc.reverse :: splitWs rest []
    else splitWs rest (c :: acc)

/-- `' '.join(words)`. -/
def joinSpace : List (List Char) → List Char
  | [] => []
  | [w] => w
  | w :: ws => w ++ ' ' :: joinSpace ws

/-- `gvm/utils.py: camel_case_to_lower`. -/
def camel_case_to_lower (name : String) : String :=
  ⟨joinSpace ((splitWs (subUpperLower (subUpperRuns name.data false)) []).map
    (List.map Char.toLower))⟩

/-- `RE_TOKEN = '[A-Z][a-zA-Z0-9]*'` used via `.match`, i.e. anchored prefix:
only the first character is constrained. -/
def re_token_match (name : String) : Bool :=
  match name.data with
  | [] => false
  | c :: _ => isUpperAZ c

/-- `RE_PARSELET = '[a-z][a-z0-9_]*'` via `.match`: first character only. -/
def re_parselet_match (name : String) : Bool :=
  match name.data with
  | [] => false
  | c :: _ => isLowerAZ c

structure TokenID where
  id : Nat
  name : String
  description : String
  is_implicit : Bool
deriving DecidableEq, Repr

inductive ParseletKind where
  | Packrat
  | Pratt
deriving DecidableEq, Repr

structure ParseletID where
  id : Nat
  name : String
  kind : ParseletKind
  result_type : PyType
deriving DecidableEq, Repr

inductive SymbolID where
  | tokSym (t : TokenID)
  | parSym (p : ParseletID)
deriving DecidableEq, Repr

structure Grammar where
  symbols : List (String × SymbolID)
  tokens : List (String × TokenID)
  parselets : List (String × ParseletID)
  trivia : List TokenID
  brackets : List (TokenID × TokenID)
  open_brackets : List TokenID
  close_brackets : List TokenID
  bracket_pairs : List (TokenID × TokenID)
deriving DecidableEq, Repr

/-- `Grammar.add_token`; `GrammarError` is `.error ()`.  A fresh token gets
`id = len(symbols) + 1`; `description or default` treats the empty string as
absent, like Python truthiness. -/
def Grammar.add_token (g : Grammar) (name : String) (description : Option String)
    (is_implicit : Bool) : Except Unit (Grammar × TokenID) :=
  if !is_implicit && !re_token_match name then .error ()
  else
    match lookupStr g.tokens name with
    | some token_id => .ok (g, token_id)
    | none =>
      if (lookupStr g.symbols name).isSome then .error ()
      else
        let dflt := if is_implicit then name else camel_case_to_lower name
        let descr :=
          match description with
          | none => dflt
          | some d => if d = "" then dflt else d
        let token_id : TokenID := ⟨g.symbols.length + 1, name, descr, is_implicit⟩
        .ok ({ g with
          tokens := g.tokens ++ [(name, token_id)],
          symbols := g.symbols ++ [(name, .tokSym token_id)] }, token_id)

/-- `Grammar.add_parselet`: redefinition must agree on kind and result type; a
fresh parselet gets `id = len(symbols)` — the source has no `+ 1` here, unlike
`add_token`. -/
def Grammar.add_parselet (g : Grammar) (name : String) (kind : ParseletKind)
    (result_type : PyType) : Except Unit (Grammar × ParseletID) :=
  if !re_parselet_match name then .error ()
  else
    match lookupStr g.parselets name with
    | some parser_id =>
      if parser_id.kind ≠ kind then .error ()
      else if parser_id.result_type ≠ result_type then .error ()
      else .ok (g, parser_id)
    | none =>
      if (lookupStr g.symbols name).isSome then .error ()
      else
        let parser_id : ParseletID := ⟨g.symbols.length, name, kind, result_type⟩
        .ok ({ g with
          parselets := g.parselets ++ [(name, parser_id)],
          symbols := g.symbols ++ [(name, .parSym parser_id)] }, parser_id)

/-- `Grammar.add_trivia`: set insertion under id-equality. -/
def Grammar.add_trivia (g : Grammar) (token_id : TokenID) : Grammar :=
  { g with trivia :=
      if g.trivia.any (fun x => x.id == token_id.id) then g.trivia
      else g.trivia ++ [token_id] }

/-- `self.__bracket_pairs[open_id] = close_id`: dict update keyed by id. -/
def bracketPairsSet : List (TokenID × TokenID) → TokenID → TokenID → List (TokenID × TokenID)
  | [], o, c => [(o, c)]
  | (k, v) :: rest, o, c =>
    if k.id == o.id then (k, c) :: rest else (k, v) :: bracketPairsSet rest o c

/-- `Grammar.add_brackets`: insert into the pair set and both id sets, and set
the open-to-close map entry. -/
def Grammar.add_brackets (g : Grammar) (open_id close_id : TokenID) : Grammar :=
  { g with
    brackets :=
      if g.brackets.any (fun pr => pr.1.id == open_id.id && pr.2.id == close_id.id)
      then g.brackets else g.brackets ++ [(open_id, close_id)],
    open_brackets :=
      if g.open_brackets.any (fun x => x.id == open_id.id) then g.open_brackets
      else g.open_brackets ++ [open_id],
    close_brackets :=
      if g.close_brackets.any (fun x => x.id == close_id.id) then g.close_brackets
      else g.close_brackets ++ [close_id],
    bracket_pairs := bracketPairsSet g.bracket_pairs open_id close_id }

/-- The `symbols` correspondence map of `extend`, keyed by the integer id
(Python hashes `SymbolID` by `id` alone, so a later parselet entry with the
same integer OVERWRITES a token entry). -/
def corrSet : List (Nat × SymbolID) → Nat → SymbolID → List (Nat × SymbolID)
  | [], k, v => [(k, v)]
  | (k0, v0) :: rest, k, v =>
    if k0 == k then (k0, v) :: rest else (k0, v0) :: corrSet rest k v

def corrGet : List (Nat × SymbolID) → Nat → Option SymbolID
  | [], _ => none
  | (k0, v0) :: rest, k => if k0 == k then some v0 else corrGet rest k

/-- The token-merge loop of `extend`: each of the other grammar's tokens is
re-registered here and recorded in the correspondence map. -/
def extendTokens : Grammar → List (String × TokenID) → List (Nat × SymbolID) →
    Except Unit (Grammar × List (Nat × SymbolID))
  | g, [], corr => .ok (g, corr)
  | g, (_, token_id) :: rest, corr =>
    match g.add_token token_id.name (some token_id.description) token_id.is_implicit with
    | .error _ => .error ()
    | .ok (g', new_id) => extendTokens g' rest (corrSet corr token_id.id (.tokSym new_id))

/-- The parselet-merge loop of `extend` (`result_type` defaults to
`SyntaxNode`). -/
def extendParselets : Grammar → List (String × ParseletID) → List (Nat × SymbolID) →
    Except Unit (Grammar × List (Nat × SymbolID))
  | g, [], corr => .ok (g, corr)
  | g, (_, parser_id) :: rest, corr =>
    match g.add_parselet parser_id.name parser_id.kind (.scalar "SyntaxNode") with
    | .error _ => .error ()
    | .ok (g', new_id) => extendParselets g' rest (corrSet corr parser_id.id (.parSym new_id))

/-- The trivia-merge loop: `self.add_trivia(cast(TokenID, symbols[token_id]))`
— REWRITTEN through the correspondence map; a missing key (`KeyError`) or a
parselet hiding behind the unchecked `cast` aborts. -/
def extendTrivia : Grammar → List TokenID → List (Nat × SymbolID) → Except Unit Grammar
  | g, [], _ => .ok g
  | g, token_id :: rest, corr =>
    match corrGet corr token_id.id with
    | some (.tokSym new_id) => extendTrivia (g.add_trivia new_id) rest corr
    | some (.parSym _) => .error ()
    | none => .error ()

/-- The bracket-merge loop: `self.add_brackets(open_id, close_id)` — the other
grammar's OWN TokenIDs, passed verbatim, with no correspondence-map rewrite. -/
def extendBrackets : Grammar → List (TokenID × TokenID) → Grammar
  | g, [] => g
  | g, (open_id, close_id) :: rest => extendBrackets (g.add_brackets open_id close_id) rest

/-- `Grammar.extend`, restricted to the phases that can touch the claim's
fields (tokens, parselets, trivia, brackets); the later pattern-merge and
table-merge phases write only the pattern list and the tables. -/
def Grammar.extend (g : Grammar) (other : Grammar) : Except Unit Grammar :=
  match extendTokens g other.tokens [] with
  | .error _ => .error ()
  | .ok (g1, corr1) =>
    match extendParselets g1 other.parselets corr1 with
    | .error _ => .error ()
    | .ok (g2, corr2) =>
      match extendTrivia g2 other.trivia corr2 with
      | .error _ => .error ()
      | .ok g3 => .ok (extendBrackets g3 other.brackets)

def Grammar.empty : Grammar := ⟨[], [], [], [], [], [], [], []⟩

/-- `Grammar.__init__`: the two predefined implicit tokens `<EOF>` (id 1) and
`<ERROR>` (id 2); the error branches are unreachable on the empty grammar. -/
def Grammar.new : Grammar :=
  match Grammar.empty.add_token "<EOF>" (some "end of file") true with
  | .ok (g, _) =>
    match g.add_token "<ERROR>" (some "error token") true with
    | .ok (g2, _) => g2
    | .error _ => Grammar.empty
  | .error _ => Grammar.empty

/-- Grammar 1 of the C7 scenario: fresh grammar plus a token `C` (id 3). -/
def g1cex : Except Unit Grammar :=
  (Grammar.new.add_token "C" none false).map Prod.fst

/-- Grammar 2: fresh grammar with tokens `A` (id 3) and `B` (id 4), `A` made
trivia, and `(A, B)` registered as a bracket pair. -/
def g2cex : Except Unit Grammar :=
  match Grammar.new.add_token "A" none false with
  | .ok (g, a) =>
    match g.add_token "B" none false with
    | .ok (g2, b) => .ok ((g2.add_trivia a).add_brackets a b)
    | .error _ => .error ()
  | .error _ => .error ()

def extendedCex : Except Unit Grammar :=
  match g1cex, g2cex with
  | .ok g1, .ok g2 => g1.extend g2
  | _, _ => .error ()

/-- C7 (code bug): after `g1.extend(g2)`, the trivia set HAS been rewritten
through the correspondence map (it holds `A` with its new id 4), but the
bracket collections still hold g2's own TokenIDs: the stored opening bracket
is `A` with id 3, while in the extended grammar id 3 is the token `C` and the
registered `A` has id 4 — no registered token record matches the stored
bracket id and name together. -/
theorem C7_extend_keeps_foreign_bracket_ids :
    extendedCex.toOption.map (fun g => (g.brackets, g.open_brackets, g.trivia,
        (lookupStr g.tokens "A").map TokenID.id, (lookupStr g.tokens "C").map TokenID.id,
        g.tokens.all fun p => !(p.2.id == 3 && p.2.name == "A")))
      = some ([(⟨3, "A", "a", false⟩, ⟨4, "B", "b", false⟩)], [⟨3, "A", "a", false⟩],
          [⟨4, "A", "a", false⟩], some 4, some 3, true) := by
  rfl

end Gvm
